import Mathlib

set_option maxRecDepth 8000

/-!
A shallow embedding of `src/main.py` (class `EnhancedPythonMentor`), a small
question-answering helper: a keyword classifier (`analyze_question`), a
SQLite-backed lookup-or-generate responder (`generate_response`), a static
follow-up table (`generate_follow_up_questions`) and an append-only
interaction log (`record_interaction`).

Modelling decisions:
  * The SQLite database is a record of three lists (`qa_pairs`,
    `user_interactions`, `code_examples`); `INSERT` appends, `SELECT ... LIMIT 1`
    (or `fetchone`) is `List.find?` in rowid (insertion) order.
  * The SQL `LIKE` operator is modelled by `likeMatch`: `%` matches any
    sequence, `_` any single character, other characters compare
    case-insensitively on ASCII (SQLite's default `LIKE` semantics).
  * The pretrained model call (`self.model.generate` plus decoding) is an
    opaque function parameter `gen : String → String` applied to the prompt;
    `generate_response` additionally returns how many times it was invoked.
  * `datetime.now()` is an explicit `now : Nat` parameter.
  * Python's `re.search` on the concrete patterns of `concept_patterns`
    (`\bword\b` shapes, one literal alternative, optional `(ing)?` groups) is
    embedded as word-boundary search functions over ASCII strings;
    `str.lower` is per-character ASCII lowercasing.
-/

/-- ASCII word character, modelling the regex class `\w` on the ASCII
questions handled here. -/
def wordChar (c : Char) : Bool := c.isAlphanum || c == '_'

/-- A word boundary next to an optional neighbouring character: the edge of
the string, or a non-word character. -/
def boundaryOk : Option Char → Bool
  | none => true
  | some c => !wordChar c

/-- Does the word `w` occur at the head of `s`, followed by a word boundary? -/
def wordPrefixAt : List Char → List Char → Bool
  | [], [] => true
  | [], c :: _ => !wordChar c
  | _ :: _, [] => false
  | a :: w, b :: s => a == b && wordPrefixAt w s

/-- Search every position of the string for the whole word `w`
(regex `\bw\b`); `prev` is the character just before the current position. -/
def wordSearchFrom (w : List Char) (prev : Option Char) : List Char → Bool
  | [] => boundaryOk prev && wordPrefixAt w []
  | c :: s => (boundaryOk prev && wordPrefixAt w (c :: s)) || wordSearchFrom w (some c) s

/-- `re.search` of the pattern `\bw\b` over the whole string. -/
def wordSearch (w s : List Char) : Bool := wordSearchFrom w none s

/-- Python's substring test `w in s`. -/
def containsSub (w : List Char) : List Char → Bool
  | [] => w.isEmpty
  | c :: s => w.isPrefixOf (c :: s) || containsSub w s

/-- `re.search` for the pattern `\bvenv\b|virtual environment`. -/
def reSearchVenv (s : List Char) : Bool :=
  wordSearch "venv".data s || containsSub "virtual environment".data s

/-- `re.search` for the pattern `\bdjango\b`. -/
def reSearchDjango (s : List Char) : Bool := wordSearch "django".data s

/-- `re.search` for the pattern `\bflask\b`. -/
def reSearchFlask (s : List Char) : Bool := wordSearch "flask".data s

/-- `re.search` for the pattern `\bapi\b`. -/
def reSearchApi (s : List Char) : Bool := wordSearch "api".data s

/-- `re.search` for the pattern `\bdeployment\b`. -/
def reSearchDeployment (s : List Char) : Bool := wordSearch "deployment".data s

/-- `re.search` for the pattern `\bdocker\b`. -/
def reSearchDocker (s : List Char) : Bool := wordSearch "docker".data s

/-- `re.search` for the pattern `\btest(ing)?\b`: the whole word `test` or the
whole word `testing`. -/
def reSearchTesting (s : List Char) : Bool :=
  wordSearch "test".data s || wordSearch "testing".data s

/-- `re.search` for the pattern `\bdebug(ging)?\b`: the whole word `debug` or
the whole word `debugging`. -/
def reSearchDebugging (s : List Char) : Bool :=
  wordSearch "debug".data s || wordSearch "debugging".data s

/-- `self.concept_patterns`: the ordered pattern-to-category rules (Python
dicts preserve insertion order). -/
def concept_patterns : List ((List Char → Bool) × String) :=
  [(reSearchVenv, "virtual_environment"),
   (reSearchDjango, "django_framework"),
   (reSearchFlask, "flask_framework"),
   (reSearchApi, "api_development"),
   (reSearchDeployment, "deployment"),
   (reSearchDocker, "docker"),
   (reSearchTesting, "testing"),
   (reSearchDebugging, "debugging")]

/-- Python `question.lower()` on ASCII text. -/
def pyLower (s : List Char) : List Char := s.map Char.toLower

/-- The category loop of `analyze_question`: `category = 'general'`, then for
each rule in order, on the first regex match take its category and break. -/
def categoryLoop : List ((List Char → Bool) × String) → List Char → String
  | [], _ => "general"
  | (p, cat) :: rest, ql => if p ql then cat else categoryLoop rest ql

/-- The difficulty estimate of `analyze_question`: advanced-indicating
substrings first, then intermediate-indicating ones, else beginner. -/
def difficultyOf (ql : List Char) : String :=
  if ["advanced", "complex", "architecture"].any (fun w => containsSub w.data ql) then
    "advanced"
  else if ["deploy", "optimize", "secure"].any (fun w => containsSub w.data ql) then
    "intermediate"
  else
    "beginner"

/-- `analyze_question`: lowercase the question, pick the category of the first
matching rule of `concept_patterns` (default `general`), estimate the
difficulty from keyword substrings. Returns (category, difficulty). -/
def analyze_question (question : List Char) : String × String :=
  let ql := pyLower question
  (categoryLoop concept_patterns ql, difficultyOf ql)

/-- SQLite `LIKE` case folding: ASCII uppercase folds to lowercase. -/
def likeFold (c : Char) : Char :=
  if 'A' ≤ c ∧ c ≤ 'Z' then Char.ofNat (c.toNat + 32) else c

/-- Helper for the `%` wildcard: does the rest of the pattern (as the
predicate `f`) match some suffix of the string? -/
def likeStar (f : List Char → Bool) : List Char → Bool
  | [] => f []
  | c :: s => f (c :: s) || likeStar f s

/-- SQLite `LIKE` pattern matching: `%` matches any sequence, `_` any single
character, anything else one character up to ASCII case. -/
def likeMatch : List Char → List Char → Bool
  | [], s => s.isEmpty
  | p :: ps, s =>
    if p = '%' then
      likeStar (likeMatch ps) s
    else
      match s with
      | [] => false
      | c :: s' => if p = '_' then likeMatch ps s' else likeFold p == likeFold c && likeMatch ps s'

/-- The `LIKE` pattern `f'%{question}%'` built by `generate_response`. -/
def likePat (question : List Char) : List Char := '%' :: (question ++ ['%'])

/-- A row of the `qa_pairs` table. -/
structure QAPair where
  question : String
  answer : String
  category : String
  difficulty : String
  timestamp : Nat
deriving DecidableEq

/-- A row of the `user_interactions` table. -/
structure Interaction where
  question : String
  matched_response : String
  helpful : Bool
  timestamp : Nat
deriving DecidableEq

/-- A row of the `code_examples` table. -/
structure CodeExample where
  concept : String
  code : String
  explanation : String
  difficulty : String
deriving DecidableEq

/-- The three tables of `python_mentor.db`, each in rowid order. -/
structure MentorDB where
  qa_pairs : List QAPair
  user_interactions : List Interaction
  code_examples : List CodeExample
deriving DecidableEq

/-- A database with all three tables empty. -/
def emptyDB : MentorDB := ⟨[], [], []⟩

/-- The first row seeded by `initialize_basic_qa`. -/
def seedRow1 (now : Nat) : QAPair :=
  ⟨"How do I start a new Python project?",
   "Here are the steps to start a new Python project:\n                1. Create a new directory for your project\n                2. Set up a virtual environment\n                3. Initialize git repository\n                4. Create requirements.txt\n                5. Set up basic project structure",
   "project_setup", "beginner", now⟩

/-- The second row seeded by `initialize_basic_qa`. -/
def seedRow2 (now : Nat) : QAPair :=
  ⟨"How do I deploy my Python application?",
   "Deployment steps typically include:\n                1. Prepare your application (debug=False, environment variables)\n                2. Choose a hosting platform (Heroku, AWS, DigitalOcean)\n                3. Set up deployment configuration\n                4. Deploy your application\n                5. Monitor for any issues",
   "deployment", "intermediate", now⟩

/-- The `basic_qa` list of `initialize_basic_qa`. -/
def basic_qa (now : Nat) : List QAPair := [seedRow1 now, seedRow2 now]

/-- `initialize_basic_qa`: INSERT each basic pair into `qa_pairs`. -/
def initialize_basic_qa (db : MentorDB) (now : Nat) : MentorDB :=
  ⟨db.qa_pairs ++ basic_qa now, db.user_interactions, db.code_examples⟩

/-- `setup_knowledge_base` after table creation: seed `qa_pairs` when the
table is empty. -/
def setup_knowledge_base (db : MentorDB) (now : Nat) : MentorDB :=
  if db.qa_pairs.length = 0 then initialize_basic_qa db now else db

/-- `get_relevant_code_example`: first `code_examples` row whose concept
equals the category, formatted as a fenced code block then its explanation;
`none` when the table has no such row. -/
def get_relevant_code_example (db : MentorDB) (concept : String) : Option String :=
  match db.code_examples.find? (fun ce => ce.concept == concept) with
  | some ce => some ("```python\n" ++ ce.code ++ "\n```\n" ++ ce.explanation)
  | none => none

/-- The row filter of the `SELECT answer FROM qa_pairs WHERE category = ? AND
difficulty = ? AND question LIKE ?` lookup, with pattern `f'%{question}%'`. -/
def qa_lookup_match (cat diff : String) (question : String) (row : QAPair) : Bool :=
  row.category == cat && row.difficulty == diff &&
    likeMatch (likePat question.data) row.question.data

/-- The static follow-up table of `generate_follow_up_questions`. -/
def follow_ups : List (String × List String) :=
  [("virtual_environment",
    ["How do I activate the virtual environment?",
     "Should I include venv in git?"]),
   ("deployment",
    ["How do I set up environment variables?",
     "What are the best practices for production deployment?"]),
   ("testing",
    ["How do I write unit tests?",
     "What testing framework should I use?"])]

/-- `generate_follow_up_questions`: `follow_ups.get(category, [])`. -/
def generate_follow_up_questions (category : String) : List String :=
  ((follow_ups.find? (fun p => p.1 == category)).map Prod.snd).getD []

/-- The prompt `context` built by `generate_response` on a cache miss. -/
def mkPrompt (question : String) : String :=
  "Python project question: " ++ question ++ "\nDetailed answer:"

/-- The result dictionary of `generate_response`. -/
structure Response where
  answer : String
  code_example : Option String
  category : String
  difficulty : String
  follow_up_questions : List String
deriving DecidableEq

/-- `generate_response`: analyze, look up a stored answer (category,
difficulty and `LIKE '%question%'`), else call the model on the prompt and
INSERT the new pair; attach a code example and follow-ups. Also returns the
updated database and the number of model invocations. -/
def generate_response (gen : String → String) (db : MentorDB) (now : Nat)
    (question : String) : Response × MentorDB × Nat :=
  let analysis := analyze_question question.data
  match db.qa_pairs.find? (qa_lookup_match analysis.1 analysis.2 question) with
  | some row =>
      (⟨row.answer, get_relevant_code_example db analysis.1, analysis.1, analysis.2,
        generate_follow_up_questions analysis.1⟩, db, 0)
  | none =>
      let response := gen (mkPrompt question)
      let db' : MentorDB :=
        ⟨db.qa_pairs ++ [⟨question, response, analysis.1, analysis.2, now⟩],
         db.user_interactions, db.code_examples⟩
      (⟨response, get_relevant_code_example db' analysis.1, analysis.1, analysis.2,
        generate_follow_up_questions analysis.1⟩, db', 1)

/-- `record_interaction`: INSERT one row into `user_interactions`. -/
def record_interaction (db : MentorDB) (now : Nat) (question response : String)
    (helpful : Bool) : MentorDB :=
  ⟨db.qa_pairs, db.user_interactions ++ [⟨question, response, helpful, now⟩],
   db.code_examples⟩

/-- The category function as §4.1 of the spec words it: test the lowercased
question against the ordered rule list, return the category of the first rule
that matches, `general` when none matches. Spec-side definition for the
refinement claim; compare with `analyze_question`. -/
def spec_category (ql : List Char) : String :=
  ((concept_patterns.find? (fun pc => pc.1 ql)).map Prod.snd).getD "general"

/-- The fixed category enumeration of the spec's invariant (§3): the eight
pattern categories, the `general` default and the seeded `project_setup`. -/
def validCategory (c : String) : Bool :=
  ["virtual_environment", "django_framework", "flask_framework", "api_development",
   "deployment", "docker", "testing", "debugging", "general", "project_setup"].contains c

/-- The fixed difficulty enumeration of the spec's invariant (§3). -/
def validDifficulty (d : String) : Bool :=
  ["beginner", "intermediate", "advanced"].contains d

/-- A demonstration store with one deployment/intermediate row, used by
concrete instances below. -/
def demoRow : QAPair := ⟨"big deployment guide", "STORED", "deployment", "intermediate", 0⟩

/-- The database holding exactly `demoRow`. -/
def demoStore : MentorDB := ⟨[demoRow], [], []⟩

/-- A stored pair whose question is the bare word "deployment", used to test
the direction of the substring lookup. -/
def ctrRow : QAPair := ⟨"deployment", "STORED", "deployment", "intermediate", 0⟩

/-- The database holding exactly `ctrRow`. -/
def ctrStore : MentorDB := ⟨[ctrRow], [], []⟩

/-! ### Lemmas about the `LIKE` matcher -/

theorem likeStar_here {f : List Char → Bool} {s : List Char} (h : f s = true) :
    likeStar f s = true := by
  cases s <;> simp [likeStar, h]

theorem likeStar_skip {f : List Char → Bool} {s : List Char} (c : Char)
    (h : likeStar f s = true) : likeStar f (c :: s) = true := by
  simp [likeStar, h]

theorem like_pct_any : ∀ t : List Char, likeMatch ['%'] t = true := by
  intro t
  induction t with
  | nil => rfl
  | cons c t ih =>
    rw [likeMatch.eq_def] at ih ⊢
    simp only [reduceIte] at ih ⊢
    exact likeStar_skip c ih

theorem like_pct_cons {ps s : List Char} (h : likeMatch ps s = true) :
    likeMatch ('%' :: ps) s = true := by
  rw [likeMatch.eq_def]
  simp only [reduceIte]
  exact likeStar_here h

theorem like_pct_skip {ps s : List Char} {c : Char}
    (h : likeMatch ('%' :: ps) s = true) :
    likeMatch ('%' :: ps) (c :: s) = true := by
  rw [likeMatch.eq_def] at h ⊢
  simp only [reduceIte] at h ⊢
  exact likeStar_skip c h

theorem like_self : ∀ p : List Char, likeMatch p p = true := by
  intro p
  induction p with
  | nil => rfl
  | cons a ps ih =>
    by_cases ha : a = '%'
    · subst ha
      rw [likeMatch.eq_def]
      simp only [reduceIte]
      exact likeStar_skip _ (likeStar_here ih)
    · by_cases ha' : a = '_'
      · subst ha'
        rw [likeMatch.eq_def]
        simpa using ih
      · rw [likeMatch.eq_def]
        simp [ha, ha', ih]

theorem likeStar_append {f g : List Char → Bool} {s t : List Char}
    (h : likeStar f s = true) (hfg : ∀ u, f u = true → g (u ++ t) = true) :
    likeStar g (s ++ t) = true := by
  induction s with
  | nil => exact likeStar_here (hfg [] h)
  | cons c s ih =>
    rw [likeStar] at h
    rcases Bool.or_eq_true_iff.mp h with h1 | h1
    · exact likeStar_here (hfg (c :: s) h1)
    · exact likeStar_skip c (ih h1)

theorem like_append_pct : ∀ {p s : List Char}, likeMatch p s = true →
    ∀ t : List Char, likeMatch (p ++ ['%']) (s ++ t) = true := by
  intro p
  induction p with
  | nil =>
    intro s h t
    have hs : s = [] := by
      rw [likeMatch.eq_def] at h
      simpa [List.isEmpty_iff] using h
    subst hs
    simpa using like_pct_any t
  | cons a ps ih =>
    intro s h t
    simp only [List.cons_append]
    by_cases ha : a = '%'
    · subst ha
      rw [likeMatch.eq_def] at h ⊢
      simp only [reduceIte] at h ⊢
      exact likeStar_append h (fun u hu => ih hu t)
    · by_cases ha' : a = '_'
      · subst ha'
        cases s with
        | nil => rw [likeMatch.eq_def] at h; simp at h
        | cons c s' =>
          rw [likeMatch.eq_def] at h
          simp only [reduceIte] at h
          rw [likeMatch.eq_def]
          simp only [List.cons_append, reduceIte]
          exact ih h t
      · cases s with
        | nil => rw [likeMatch.eq_def] at h; simp [ha] at h
        | cons c s' =>
          rw [likeMatch.eq_def] at h
          simp only [ha, ha', if_false] at h
          rcases Bool.and_eq_true_iff.mp h with ⟨h1, h2⟩
          rw [likeMatch.eq_def]
          simp only [List.cons_append, ha, ha', if_false]
          exact Bool.and_eq_true_iff.mpr ⟨h1, ih h2 t⟩

theorem like_substring (q a b : List Char) :
    likeMatch (likePat q) (a ++ (q ++ b)) = true := by
  induction a with
  | nil =>
    simp only [likePat, List.nil_append]
    exact like_pct_cons (like_append_pct (like_self q) b)
  | cons c a ih =>
    simp only [List.cons_append]
    exact like_pct_skip ih

/-! ### Lemmas about the classifier -/

theorem categoryLoop_eq_find :
    ∀ (pats : List ((List Char → Bool) × String)) (ql : List Char),
      categoryLoop pats ql =
        ((pats.find? (fun pc => pc.1 ql)).map Prod.snd).getD "general" := by
  intro pats ql
  induction pats with
  | nil => rfl
  | cons pc rest ih =>
    obtain ⟨p, c⟩ := pc
    by_cases h : p ql = true
    · simp [categoryLoop, h, List.find?_cons_of_pos]
    · rw [categoryLoop]
      simp only [h]
      rw [List.find?_cons_of_neg _ (by simpa using h)]
      simpa using ih

theorem categoryLoop_range :
    ∀ (pats : List ((List Char → Bool) × String)) (ql : List Char),
      categoryLoop pats ql = "general" ∨ categoryLoop pats ql ∈ pats.map Prod.snd := by
  intro pats ql
  induction pats with
  | nil => exact Or.inl rfl
  | cons pc rest ih =>
    obtain ⟨p, c⟩ := pc
    by_cases h : p ql = true
    · right; simp [categoryLoop, h]
    · rcases ih with h1 | h1
      · left; rw [categoryLoop]; simpa [h] using h1
      · right; rw [categoryLoop]; simp only [h, if_false, List.map_cons, List.mem_cons]
        exact Or.inr h1

theorem analyze_question_fst (q : List Char) :
    (analyze_question q).1 = categoryLoop concept_patterns (pyLower q) := rfl

theorem analyze_question_snd (q : List Char) :
    (analyze_question q).2 = difficultyOf (pyLower q) := rfl

theorem analyze_category_valid (q : List Char) :
    validCategory (analyze_question q).1 = true := by
  rw [analyze_question_fst]
  rcases categoryLoop_range concept_patterns (pyLower q) with h | h
  · rw [h]; decide
  · exact (by decide : ∀ c ∈ concept_patterns.map Prod.snd, validCategory c = true) _ h

theorem analyze_difficulty_valid (q : List Char) :
    validDifficulty (analyze_question q).2 = true := by
  rw [analyze_question_snd]
  unfold difficultyOf
  split
  · decide
  split
  · decide
  · decide

/-! ### Claim theorems -/

/-- C5: for every input question, `analyze_question` determines the category by
testing the lowercased question against the fixed ordered rule list
`concept_patterns`, returning the category of the first rule that matches and
`general` when no rule matches — i.e. it agrees with the spec-side
`spec_category`. -/
theorem C5_category_first_match (q : List Char) :
    (analyze_question q).1 = spec_category (pyLower q) := by
  rw [analyze_question_fst]
  unfold spec_category
  exact categoryLoop_eq_find concept_patterns (pyLower q)

/-- C6: every question whose lowercased text contains `advanced` or
`architecture` as a substring gets difficulty `advanced`, whatever its
category. -/
theorem C6_advanced_keyword_difficulty (q : List Char)
    (h : containsSub "advanced".data (pyLower q) = true ∨
         containsSub "architecture".data (pyLower q) = true) :
    (analyze_question q).2 = "advanced" := by
  rw [analyze_question_snd]
  unfold difficultyOf
  rcases h with h | h <;> simp [h]

/-- Witness for C6 at the question "advanced". -/
theorem C6_witness : (analyze_question "advanced".data).2 = "advanced" :=
  C6_advanced_keyword_difficulty "advanced".data (Or.inl (by decide))

/-- C7: `generate_follow_up_questions` returns exactly the two configured
strings for `testing`, and the empty list for every category that is not a
key of the static `follow_ups` table. -/
theorem C7_follow_up_table :
    generate_follow_up_questions "testing" =
      ["How do I write unit tests?", "What testing framework should I use?"] ∧
    ∀ c : String, c ∉ follow_ups.map Prod.fst → generate_follow_up_questions c = [] := by
  refine ⟨by rfl, ?_⟩
  intro c hc
  have hnone : follow_ups.find? (fun p => p.1 == c) = none := by
    rw [List.find?_eq_none]
    intro x hx hbeq
    exact hc (List.mem_map.mpr ⟨x, hx, beq_iff_eq.mp hbeq⟩)
  unfold generate_follow_up_questions
  rw [hnone]
  rfl

/-- Witness for C7 at the non-key category "docker". -/
theorem C7_witness : generate_follow_up_questions "docker" = [] :=
  C7_follow_up_table.2 "docker" (by decide)

/-- C3 as stated is false: "django deployment" matches the deployment
pattern, yet `analyze_question` assigns `django_framework`, because the
earlier django rule matches first. -/
theorem C3_counterexample :
    reSearchDeployment (pyLower "django deployment".data) = true ∧
    (analyze_question "django deployment".data).1 = "django_framework" ∧
    ¬ (analyze_question "django deployment".data).1 = "deployment" := by
  decide

/-- C3 amended: every question whose lowercased text matches the deployment
pattern and matches none of the four earlier rules of `concept_patterns`
(venv/virtual environment, django, flask, api) gets category `deployment`. -/
theorem C3_deployment_category (q : List Char)
    (h : reSearchDeployment (pyLower q) = true)
    (h1 : reSearchVenv (pyLower q) = false)
    (h2 : reSearchDjango (pyLower q) = false)
    (h3 : reSearchFlask (pyLower q) = false)
    (h4 : reSearchApi (pyLower q) = false) :
    (analyze_question q).1 = "deployment" := by
  rw [analyze_question_fst]
  simp [concept_patterns, categoryLoop, h, h1, h2, h3, h4]

/-- Witness for C3's amended theorem at the question "deployment". -/
theorem C3_witness : (analyze_question "deployment".data).1 = "deployment" :=
  C3_deployment_category "deployment".data (by decide) (by decide) (by decide)
    (by decide) (by decide)

/-- C10: `record_interaction` appends exactly one row (question, response,
helpful flag, timestamp) to `user_interactions` and leaves `qa_pairs` and
`code_examples` unchanged. -/
theorem C10_record_interaction_frame (db : MentorDB) (now : Nat) (q r : String)
    (flag : Bool) :
    (record_interaction db now q r flag).user_interactions =
      db.user_interactions ++ [⟨q, r, flag, now⟩] ∧
    (record_interaction db now q r flag).qa_pairs = db.qa_pairs ∧
    (record_interaction db now q r flag).code_examples = db.code_examples :=
  ⟨rfl, rfl, rfl⟩

/-- C1 fails on the code: on a store freshly seeded by the initializer, the
question "How do I deploy my Python application?" classifies as
(`general`, `intermediate`) — the pattern `\bdeployment\b` never matches the
word "deploy" — so the seeded deployment answer is not found, the model IS
invoked (once) and its generated output, not the seeded text, is returned. -/
theorem C1_seeded_question_misses :
    analyze_question "How do I deploy my Python application?".data =
      ("general", "intermediate") ∧
    (generate_response (fun _ => "GENERATED") (setup_knowledge_base emptyDB 0) 1
        "How do I deploy my Python application?").2.2 = 1 ∧
    (generate_response (fun _ => "GENERATED") (setup_knowledge_base emptyDB 0) 1
        "How do I deploy my Python application?").1.answer = "GENERATED" ∧
    ¬ (generate_response (fun _ => "GENERATED") (setup_knowledge_base emptyDB 0) 1
        "How do I deploy my Python application?").1.answer = (seedRow2 0).answer := by
  decide

/-- C2 as stated is false: `ctrStore` holds the pair ("deployment", "STORED")
with category deployment and difficulty intermediate; the input
"deployment extra" contains the stored question as a substring and
classifies to the same category and difficulty, yet the lookup misses — the
SQL test `question LIKE '%input%'` runs in the other direction — so the
model is invoked and the stored answer is not returned. -/
theorem C2_counterexample :
    containsSub "deployment".data "deployment extra".data = true ∧
    analyze_question "deployment extra".data = ("deployment", "intermediate") ∧
    (generate_response (fun _ => "GENERATED") ctrStore 1 "deployment extra").2.2 = 1 ∧
    ¬ (generate_response (fun _ => "GENERATED") ctrStore 1 "deployment extra").1.answer
        = "STORED" := by
  decide

/-- C2 amended: for every stored QAPair with category `deployment` and
difficulty `intermediate`, and every input question whose text is contained
as a substring in that stored question (the direction the SQL test
`question LIKE '%input%'` actually implements) and which classifies to the
same category and difficulty, `generate_response` does not invoke the
model's generate call and returns the stored answer of the first `qa_pairs`
row matching the lookup: the row `p'` with `find? ... = some p'`, which
therefore has the looked-up category and difficulty and satisfies the
`LIKE '%input%'` test. -/
theorem C2_substring_hit_returns_stored (gen : String → String) (db : MentorDB)
    (now : Nat) (q : String) (p : QAPair)
    (hp : p ∈ db.qa_pairs) (hcat : p.category = "deployment")
    (hdiff : p.difficulty = "intermediate")
    (hsub : ∃ a b, p.question.data = a ++ (q.data ++ b))
    (hana : analyze_question q.data = ("deployment", "intermediate")) :
    (generate_response gen db now q).2.2 = 0 ∧
    ∃ p', db.qa_pairs.find? (qa_lookup_match "deployment" "intermediate" q) = some p' ∧
      p' ∈ db.qa_pairs ∧ p'.category = "deployment" ∧
      p'.difficulty = "intermediate" ∧
      likeMatch (likePat q.data) p'.question.data = true ∧
      (generate_response gen db now q).1.answer = p'.answer := by
  have hmatch : qa_lookup_match "deployment" "intermediate" q p = true := by
    obtain ⟨a, b, hab⟩ := hsub
    unfold qa_lookup_match
    rw [hcat, hdiff, hab]
    simp [like_substring]
  have hsome : (db.qa_pairs.find? (qa_lookup_match "deployment" "intermediate" q)).isSome
      = true :=
    List.find?_isSome.mpr ⟨p, hp, hmatch⟩
  obtain ⟨r, hr⟩ := Option.isSome_iff_exists.mp hsome
  have hpr := List.find?_some hr
  have hmem := List.mem_of_find?_eq_some hr
  unfold qa_lookup_match at hpr
  simp only [Bool.and_eq_true, beq_iff_eq] at hpr
  constructor
  · simp only [generate_response, hana, hr]
  · exact ⟨r, hr, hmem, hpr.1.1, hpr.1.2, hpr.2,
      by simp only [generate_response, hana, hr]⟩

/-- Witness for C2's amended theorem: the store `demoStore`, whose single
row's question "big deployment guide" contains the input "deployment". -/
theorem C2_witness :
    (generate_response (fun _ => "G") demoStore 5 "deployment").2.2 = 0 ∧
    ∃ p', demoStore.qa_pairs.find?
        (qa_lookup_match "deployment" "intermediate" "deployment") = some p' ∧
      p' ∈ demoStore.qa_pairs ∧ p'.category = "deployment" ∧
      p'.difficulty = "intermediate" ∧
      likeMatch (likePat "deployment".data) p'.question.data = true ∧
      (generate_response (fun _ => "G") demoStore 5 "deployment").1.answer = p'.answer :=
  C2_substring_hit_returns_stored (fun _ => "G") demoStore 5 "deployment" demoRow
    (by decide) rfl rfl ⟨"big ".data, " guide".data, by decide⟩ (by decide)

/-- C4: whenever the qa_pairs lookup finds no matching row, `generate_response`
invokes the model exactly once and appends exactly one new row to `qa_pairs`,
whose answer is the generated text and whose category and difficulty are the
ones resolved by `analyze_question`. -/
theorem C4_miss_generates_and_stores (gen : String → String) (db : MentorDB)
    (now : Nat) (q : String)
    (h : db.qa_pairs.find?
        (qa_lookup_match (analyze_question q.data).1 (analyze_question q.data).2 q)
      = none) :
    (generate_response gen db now q).2.2 = 1 ∧
    (generate_response gen db now q).2.1.qa_pairs =
      db.qa_pairs ++
        [⟨q, gen (mkPrompt q), (analyze_question q.data).1,
          (analyze_question q.data).2, now⟩] := by
  refine ⟨?_, ?_⟩ <;> simp only [generate_response, h]

/-- Witness for C4: the empty store and the question "hello". -/
theorem C4_witness :
    (generate_response (fun _ => "G") emptyDB 7 "hello").2.2 = 1 ∧
    (generate_response (fun _ => "G") emptyDB 7 "hello").2.1.qa_pairs =
      emptyDB.qa_pairs ++
        [⟨"hello", (fun _ : String => "G") (mkPrompt "hello"),
          (analyze_question "hello".data).1, (analyze_question "hello".data).2, 7⟩] :=
  C4_miss_generates_and_stores (fun _ => "G") emptyDB 7 "hello" rfl

/-- C8: the code_example field of every `generate_response` result is built
from the first `code_examples` row whose concept equals the resolved
category, formatted as the fenced code block followed by its explanation,
and is `none` when no such row exists. -/
theorem C8_code_example_field (gen : String → String) (db : MentorDB) (now : Nat)
    (q : String) :
    (generate_response gen db now q).1.code_example =
      match db.code_examples.find?
          (fun ce => ce.concept == (analyze_question q.data).1) with
      | some ce => some ("```python\n" ++ ce.code ++ "\n```\n" ++ ce.explanation)
      | none => none := by
  cases hfind : db.qa_pairs.find?
      (qa_lookup_match (analyze_question q.data).1 (analyze_question q.data).2 q) with
  | some row => simp only [generate_response, hfind, get_relevant_code_example]
  | none => simp only [generate_response, hfind, get_relevant_code_example]

/-- C9: every qa_pairs row written by seeding (`initialize_basic_qa`, via
`setup_knowledge_base`) or by caching in `generate_response` has a category
in the fixed ten-element enumeration and a difficulty in
{beginner, intermediate, advanced}; every operation leaves existing qa_pairs
rows in place (the old table is a prefix of the new one, so nothing is
updated or deleted), and `record_interaction` does not touch qa_pairs. -/
theorem C9_qa_pairs_invariant :
    (∀ now : Nat, ∀ p ∈ basic_qa now,
        validCategory p.category = true ∧ validDifficulty p.difficulty = true) ∧
    (∀ (gen : String → String) (db : MentorDB) (now : Nat) (q : String),
        db.qa_pairs <+: (generate_response gen db now q).2.1.qa_pairs ∧
        ∀ p ∈ (generate_response gen db now q).2.1.qa_pairs,
          p ∈ db.qa_pairs ∨
            (validCategory p.category = true ∧ validDifficulty p.difficulty = true)) ∧
    (∀ (db : MentorDB) (now : Nat),
        db.qa_pairs <+: (setup_knowledge_base db now).qa_pairs ∧
        ∀ p ∈ (setup_knowledge_base db now).qa_pairs,
          p ∈ db.qa_pairs ∨
            (validCategory p.category = true ∧ validDifficulty p.difficulty = true)) ∧
    (∀ (db : MentorDB) (now : Nat) (q r : String) (flag : Bool),
        (record_interaction db now q r flag).qa_pairs = db.qa_pairs) := by
  have hbasic : ∀ now : Nat, ∀ p ∈ basic_qa now,
      validCategory p.category = true ∧ validDifficulty p.difficulty = true := by
    intro now p hp
    simp only [basic_qa, List.mem_cons, List.not_mem_nil, or_false] at hp
    rcases hp with hp | hp <;> subst hp
    · exact ⟨(by decide : validCategory "project_setup" = true),
        (by decide : validDifficulty "beginner" = true)⟩
    · exact ⟨(by decide : validCategory "deployment" = true),
        (by decide : validDifficulty "intermediate" = true)⟩
  refine ⟨hbasic, ?_, ?_, ?_⟩
  · intro gen db now q
    cases hfind : db.qa_pairs.find?
        (qa_lookup_match (analyze_question q.data).1 (analyze_question q.data).2 q) with
    | some row =>
      refine ⟨?_, ?_⟩
      · simp only [generate_response, hfind]
        exact List.prefix_rfl
      · intro p hp
        simp only [generate_response, hfind] at hp
        exact Or.inl hp
    | none =>
      refine ⟨?_, ?_⟩
      · simp only [generate_response, hfind]
        exact List.prefix_append _ _
      · intro p hp
        simp only [generate_response, hfind, List.mem_append,
          List.mem_singleton] at hp
        rcases hp with hp | hp
        · exact Or.inl hp
        · subst hp
          exact Or.inr ⟨analyze_category_valid _, analyze_difficulty_valid _⟩
  · intro db now
    unfold setup_knowledge_base
    by_cases hlen : db.qa_pairs.length = 0
    · simp only [hlen, if_true, eq_self_iff_true]
      refine ⟨?_, ?_⟩
      · exact List.prefix_append _ _
      · intro p hp
        simp only [initialize_basic_qa, List.mem_append] at hp
        rcases hp with hp | hp
        · exact Or.inl hp
        · exact Or.inr (hbasic now p hp)
    · simp only [hlen, if_false]
      exact ⟨List.prefix_rfl, fun p hp => Or.inl hp⟩
  · intro db now q r flag
    rfl

/-- Witness for C9 at the first seeded row. -/
theorem C9_witness :
    validCategory (seedRow1 0).category = true ∧
    validDifficulty (seedRow1 0).difficulty = true :=
  C9_qa_pairs_invariant.1 0 (seedRow1 0) (by simp [basic_qa])
